import Mathlib

/-!
Shallow embedding of the `subsurface` repository's core logic
(`subsurface/curve.py` and `subsurface/seismic.py`) and verification of its
specification claims.

Conventions of the embedding:
* real numbers are modelled by `ℚ`; a data sample is `Option ℚ`, where `none`
  stands for the floating NaN used in memory for missing values;
* Python exceptions are modelled by the `PyErr` type and fallible code returns
  `Except PyErr _`;
* `numpy` primitives used by the source (`diff`, `allclose`, `arange`) are
  embedded as the functions `npDiff`, `allcloseB`, `arange` below with numpy's
  documented semantics (`allclose` with its default tolerances
  `rtol = 1e-5`, `atol = 1e-8`; `arange` with half-open range semantics and
  `ceil((stop-start)/step)` elements);
* the `xarray.DataArray` wrapped by `Curve` is represented by its observable
  pieces (the data list and the coordinate list); building it with a
  coordinate array whose size conflicts with the data raises the array
  library's `ValueError`, which the embedding returns as `PyErr.valueError`.
-/

/-- A data sample: `none` models the floating NaN marker. -/
abbrev Val : Type := Option ℚ

/-- The Python exceptions that the embedded code can raise.
`valueError` is the array library's error for conflicting sizes,
`curveError` / `seismicError` are the repository's own exception classes,
`indexError`, `attributeError` and `zeroDivisionError` are the Python
built-ins that the code can hit. -/
inductive PyErr where
  | valueError
  | curveError
  | seismicError
  | indexError
  | attributeError
  | zeroDivisionError
deriving DecidableEq, Repr

/-- `np.diff`: consecutive differences, `diff[i] = a[i+1] - a[i]`. -/
def npDiff (l : List ℚ) : List ℚ :=
  List.zipWith (fun a b => b - a) l l.tail

/-- Default relative tolerance of `np.allclose`. -/
def npRtol : ℚ := 1 / 100000

/-- Default absolute tolerance of `np.allclose`. -/
def npAtol : ℚ := 1 / 100000000

/-- `np.allclose(a, l)` with a scalar first argument: every element of `l`
satisfies `|a - x| ≤ atol + rtol * |x|`. -/
def allcloseB (a : ℚ) (l : List ℚ) : Bool :=
  l.all (fun x => decide (|a - x| ≤ npAtol + npRtol * |x|))

/-- `np.arange(start, stop, step)` for a nonzero step: the elements
`start + i * step` for `i < ⌈(stop - start) / step⌉`. -/
def arange (start stop step : ℚ) : List ℚ :=
  (List.range (⌈(stop - start) / step⌉).toNat).map (fun i => start + i * step)

/-- `Curve.get_step` (curve.py lines 168-174): returns `diffs[0]` when all
consecutive differences are `allclose` to it, raises `CurveError` otherwise.
On an input with fewer than two samples `diffs` is empty and `diffs[0]`
raises `IndexError`. -/
def getStep (arr : List ℚ) : Except PyErr ℚ :=
  match npDiff arr with
  | [] => .error .indexError
  | d :: ds => if allcloseB d (d :: ds) then .ok d else .error .curveError

/-- The `params` dict read by `Curve.__init__`, with the defaults the
constructor supplies through `params.get`. -/
structure Params where
  units : Option String
  run : Int
  null : ℚ
  service_company : Option String
  date : Option String
  code : Option String
deriving DecidableEq, Repr

/-- The defaults of `params.get` in `Curve.__init__`:
`units=None, run=0, null=-999.25, service_company=None, date=None, code=None`. -/
def Params.defaults : Params :=
  { units := none
  , run := 0
  , null := -(3997 / 4)
  , service_company := none
  , date := none
  , code := none }

/-- The observable state of a `Curve`: the wrapped `xarray.DataArray`
(data plus its coordinate array, the basis) and the metadata attributes
set by `__init__`. -/
structure Curve where
  data : List Val
  basis : List ℚ
  domain : String
  mnemonic : String
  units : Option String
  run : Int
  null : ℚ
  service_company : Option String
  date : Option String
  code : Option String
deriving DecidableEq, Repr

/-- `Curve.__init__` (curve.py lines 24-58). The constructor performs no
validation of its own: it first reads the `params` dict (a `None` params
raises `AttributeError` at `params.get`), then builds the wrapped
`xarray.DataArray`, which raises the array library's `ValueError` when the
coordinate array's size conflicts with the data's. `domain` and `mnemonic`
are stored unchecked. -/
def Curve.init (data : List Val) (basis : List ℚ) (domain : String)
    (mnemonic : String) (params? : Option Params) : Except PyErr Curve :=
  match params? with
  | none => .error .attributeError
  | some p =>
      if data.length = basis.length then
        .ok { data := data
            , basis := basis
            , domain := domain
            , mnemonic := mnemonic
            , units := p.units
            , run := p.run
            , null := p.null
            , service_company := p.service_company
            , date := p.date
            , code := p.code }
      else .error .valueError

/-- The `Curve.step` property (curve.py lines 156-162): `get_step` on the
basis, catching `CurveError` and returning `None`; any other exception
(such as the `IndexError` of a basis shorter than two samples) propagates. -/
def Curve.step (c : Curve) : Except PyErr (Option ℚ) :=
  match getStep c.basis with
  | .ok s => .ok (some s)
  | .error .curveError => .ok none
  | .error e => .error e

/-- `Curve.__getitem__` with a slice `[lo:hi]` (curve.py lines 68-80):
a shallow copy whose wrapped array is the positional slice, which slices
both the data and the coordinate array; all metadata attributes are kept. -/
def Curve.getitemSlice (c : Curve) (lo hi : Nat) : Curve :=
  { c with data := (c.data.drop lo).take (hi - lo)
         , basis := (c.basis.drop lo).take (hi - lo) }

/-- The dictionary returned by `Curve.describe`. -/
structure Stats where
  samples : Nat
  nulls : Nat
  mean : Option ℚ
  min : Option ℚ
  max : Option ℚ
deriving DecidableEq, Repr

/-- `Curve.describe` (curve.py lines 82-92): `samples` is the length,
`nulls` the number of NaN positions (`self[np.isnan(self)].shape[0]`), and
`mean`/`min`/`max` the nan-ignoring statistics (`none` on all-NaN data,
where numpy would produce NaN). -/
def Curve.describe (c : Curve) : Stats :=
  let valid := c.data.filterMap id
  { samples := c.data.length
  , nulls := (c.data.filter Option.isNone).length
  , mean := if valid.isEmpty then none else some (valid.sum / (valid.length : ℚ))
  , min := valid.min?
  , max := valid.max? }

/-- `from_lasio` (curve.py lines 215-269). The lasio record is passed as its
observable fields (`data`, `mnemonic`, `unit`, `descr`, `API_code`).
With no basis, both `start` and `stop` are required (else `CurveError`) and
the basis is `np.arange(start, stop, step)` — a `None` step falls back to
numpy's default step of 1 and a zero step raises `ZeroDivisionError`.
With a basis, the code computes `start`, `stop` and `step` into local
variables that are never used afterwards (the `except CurveError` branch
silently sets `step = None`, and a basis of fewer than two samples makes
`get_step` raise an uncaught `IndexError`; an empty basis already fails at
`basis[0]`), then constructs the `Curve` with the basis unchanged. -/
def fromLasio (cdata : List Val) (cmnemonic cunit _cdescr capi : String)
    (basis? : Option (List ℚ)) (start? stop? step? : Option ℚ)
    (run : Int) (null : ℚ) (service_company date : Option String) :
    Except PyErr Curve :=
  let params : Params :=
    { units := some cunit
    , run := run
    , null := null
    , service_company := service_company
    , date := date
    , code := some capi }
  match basis? with
  | none =>
      match start?, stop? with
      | some start, some stop =>
          match step? with
          | none => Curve.init cdata (arange start stop 1) "MD" cmnemonic (some params)
          | some s =>
              if s = 0 then .error .zeroDivisionError
              else Curve.init cdata (arange start stop s) "MD" cmnemonic (some params)
      | _, _ => .error .curveError
  | some b =>
      match getStep b with
      | .error .indexError => .error .indexError
      | _ => Curve.init cdata b "MD" cmnemonic (some params)

/-- The observable pieces of the N-dimensional array handed to `Seismic`
(seismic.py): its shape, its (flattened) values, and the `units` entry of
its `attrs` mapping, when one is present. `U` is the type of unit tags
(a plain string or a quantity of the external `pint` unit registry). -/
structure NDArray (U : Type) where
  shape : List Nat
  values : List ℚ
  attrsUnits : Option U
deriving DecidableEq

/-- The check `xarray.DataArray` performs on an explicit coordinate list:
one coordinate array per dimension, each of the dimension's length;
any conflict raises the array library's `ValueError`. -/
def coordsMatch : List (String × List ℚ) → List Nat → Bool
  | [], [] => true
  | (_, c) :: cs, n :: ns => c.length == n && coordsMatch cs ns
  | _, _ => false

/-- The observable state of a `Seismic` (seismic.py lines 20-34): the
wrapped `xarray.DataArray` (underlying array plus coordinates) and the
`_units` tag. -/
structure Seismic (U : Type) where
  xarray : NDArray U
  coords : List (String × List ℚ)
  _units : U
deriving DecidableEq

/-- `Seismic.__init__` (seismic.py lines 21-34): builds the wrapped
`xarray.DataArray` (validating an explicit coordinate list against the
data's shape, `ValueError` on conflict — the constructor itself checks
nothing and never raises `SeismicError`), then sets the unit tag to the
array's `attrs['units']` when present, else to the `units` argument
(whose Python default is `'dimensionless'`). -/
def Seismic.init {U : Type} (d : NDArray U)
    (coords? : Option (List (String × List ℚ))) (units : U) :
    Except PyErr (Seismic U) :=
  match coords? with
  | none => .ok { xarray := d, coords := [], _units := d.attrsUnits.getD units }
  | some cs =>
      if coordsMatch cs d.shape then
        .ok { xarray := d, coords := cs, _units := d.attrsUnits.getD units }
      else .error .valueError

/-- `Seismic.set_units` (seismic.py lines 36-38): replaces the `_units`
tag, nothing else. -/
def Seismic.set_units {U : Type} (s : Seismic U) (u : U) : Seismic U :=
  { s with _units := u }

/-- `Seismic.convert_units` (seismic.py lines 40-42): replaces the `_units`
tag by `self._units.to(units)`, the external unit registry's conversion
(passed here as the function `pintTo`); nothing else is touched. -/
def Seismic.convert_units {U : Type} (pintTo : U → U → U) (s : Seismic U)
    (u : U) : Seismic U :=
  { s with _units := pintTo s._units u }

/-! ### Helper lemmas -/

/-- Evaluate `arange` once its element count is known. -/
theorem arange_eval (start stop step : ℚ) (n : Nat)
    (h : (⌈(stop - start) / step⌉).toNat = n) :
    arange start stop step = (List.range n).map (fun i => start + i * step) := by
  rw [arange, h]

/-- `np.diff` on a list with at least two elements. -/
theorem npDiff_cons_cons (a b : ℚ) (l : List ℚ) :
    npDiff (a :: b :: l) = (b - a) :: npDiff (b :: l) := rfl

/-- `get_step` succeeds on a basis whose differences pass the `allclose`
regularity check, returning the first difference. -/
theorem getStep_regular (a b : ℚ) (l : List ℚ)
    (hreg : allcloseB (b - a) (npDiff (a :: b :: l)) = true) :
    getStep (a :: b :: l) = .ok (b - a) := by
  rw [npDiff_cons_cons] at hreg
  simp only [getStep, npDiff_cons_cons, hreg, if_true]

/-- `get_step` raises `CurveError` on a basis whose differences fail the
`allclose` regularity check. -/
theorem getStep_irregular (a b : ℚ) (l : List ℚ)
    (hirr : allcloseB (b - a) (npDiff (a :: b :: l)) = false) :
    getStep (a :: b :: l) = .error .curveError := by
  rw [npDiff_cons_cons] at hirr
  simp only [getStep, npDiff_cons_cons, hirr, Bool.false_eq_true, if_false]

/-! ### Claim C4 -/

/-- Claim C4: for every regular basis `b` of length at least 2 (all
consecutive differences equal within the `allclose` tolerance), resolving
with `b` as the explicit coordinate array (`from_lasio` with `basis=b` and
a matching data length) returns `b` unchanged, and the step inferred from
it equals `b[1] - b[0]` (exactly, hence within tolerance). -/
theorem from_lasio_regular_basis_kept (b0 b1 : ℚ) (rest : List ℚ)
    (data : List Val) (cm cu cd ca : String) (s0 : ℚ) (run : Int) (null : ℚ)
    (sc dt : Option String)
    (hreg : allcloseB (b1 - b0) (npDiff (b0 :: b1 :: rest)) = true)
    (hlen : data.length = (b0 :: b1 :: rest).length) :
    (fromLasio data cm cu cd ca (some (b0 :: b1 :: rest)) none none (some s0)
        run null sc dt).map (fun c => (c.basis, c.step)) =
      .ok (b0 :: b1 :: rest, .ok (some (b1 - b0))) := by
  have hg := getStep_regular b0 b1 rest hreg
  simp [fromLasio, hg, Curve.init, hlen, Curve.step, Except.map]

/-- Witness for C4 at the regular basis `[0, 1, 2]`. -/
theorem from_lasio_regular_basis_kept_witness :
    (allcloseB (1 - 0) (npDiff [(0:ℚ), 1, 2]) = true) ∧
    (([some 1, some 2, some 3] : List Val).length = [(0:ℚ), 1, 2].length) ∧
    (fromLasio [some 1, some 2, some 3] "GR" "API" "d" "c" (some [0, 1, 2])
        none none (some 1) (-1) (-(3997/4)) none none).map
        (fun c => (c.basis, c.step)) = .ok ([0, 1, 2], .ok (some (1 - 0))) := by
  refine ⟨?_, by simp, ?_⟩
  · simp [allcloseB, npDiff, npAtol, npRtol]
    norm_num
  · exact from_lasio_regular_basis_kept 0 1 [2] [some 1, some 2, some 3]
      "GR" "API" "d" "c" 1 (-1) (-(3997/4)) none none
      (by simp [allcloseB, npDiff, npAtol, npRtol]; norm_num) (by simp)

/-! ### Claim C1 -/

/-- Counterexample to claim C1: on the irregular coordinate array
`[0, 1, 3]` (paired with data of the same length), `from_lasio` does not
build a new regular basis and does not resample — it returns the basis
unchanged, the data unchanged and infers `step = None`; the returned basis
still fails the code's own regularity check (`get_step` raises
`CurveError` on it), so no "strictly regular basis via the median
difference" is ever produced. -/
theorem from_lasio_irregular_counterexample :
    (fromLasio [some 5, some 6, some 7] "GR" "API" "d" "c" (some [0, 1, 3])
        none none (some (1524/10000)) (-1) (-(3997/4)) none none).map
        (fun c => (c.basis, c.data, c.step)) =
      .ok ([0, 1, 3], [some 5, some 6, some 7], .ok none) ∧
    getStep [0, 1, 3] = .error .curveError := by
  have hg : getStep [(0:ℚ), 1, 3] = .error .curveError := by
    apply getStep_irregular
    simp [allcloseB, npDiff, npAtol, npRtol]
    norm_num
  refine ⟨?_, hg⟩
  simp [fromLasio, hg, Curve.init, Curve.step, Except.map]

/-- Claim C1 (amended): for every coordinate array whose consecutive
differences fail the `allclose` regularity check, `from_lasio` silently
accepts it — no warning is emitted, no resampling happens, the basis and
the paired data array are returned unchanged, and the inferred step is
`None`; the returned data array has the same length as the returned basis
only because construction requires the input lengths to match. -/
theorem from_lasio_irregular_silently_kept (b0 b1 : ℚ) (rest : List ℚ)
    (data : List Val) (cm cu cd ca : String) (s0 : ℚ) (run : Int) (null : ℚ)
    (sc dt : Option String)
    (hirr : allcloseB (b1 - b0) (npDiff (b0 :: b1 :: rest)) = false)
    (hlen : data.length = (b0 :: b1 :: rest).length) :
    (fromLasio data cm cu cd ca (some (b0 :: b1 :: rest)) none none (some s0)
        run null sc dt).map (fun c => (c.basis, c.data, c.step)) =
      .ok (b0 :: b1 :: rest, data, .ok none) := by
  have hg := getStep_irregular b0 b1 rest hirr
  simp [fromLasio, hg, Curve.init, hlen, Curve.step, Except.map]

/-- Witness for the amended C1 at the irregular basis `[0, 1, 3]`. -/
theorem from_lasio_irregular_silently_kept_witness :
    (allcloseB (1 - 0) (npDiff [(0:ℚ), 1, 3]) = false) ∧
    (([some 5, some 6, some 7] : List Val).length = [(0:ℚ), 1, 3].length) ∧
    (fromLasio [some 5, some 6, some 7] "GR" "API" "d" "c" (some [0, 1, 3])
        none none (some 1) (-1) (-(3997/4)) none none).map
        (fun c => (c.basis, c.data, c.step)) =
      .ok ([0, 1, 3], [some 5, some 6, some 7], .ok none) := by
  refine ⟨?_, by simp, ?_⟩
  · simp [allcloseB, npDiff, npAtol, npRtol]
    norm_num
  · exact from_lasio_irregular_silently_kept 0 1 [3] [some 5, some 6, some 7]
      "GR" "API" "d" "c" 1 (-1) (-(3997/4)) none none
      (by simp [allcloseB, npDiff, npAtol, npRtol]; norm_num) (by simp)

/-! ### Claim C9 -/

/-- Claim C9: for every `Curve` whose basis has unequal consecutive
differences (irregular, i.e. the `allclose` regularity check fails),
reading the `step` property does not raise: it catches the `CurveError`
of the regularity check and returns `None`, while the standalone
`get_step` on the same basis raises `CurveError`. -/
theorem step_property_catches_curve_error (c : Curve) (b0 b1 : ℚ)
    (rest : List ℚ) (hb : c.basis = b0 :: b1 :: rest)
    (hirr : allcloseB (b1 - b0) (npDiff (b0 :: b1 :: rest)) = false) :
    c.step = .ok none ∧ getStep c.basis = .error .curveError := by
  have hg := getStep_irregular b0 b1 rest hirr
  constructor
  · simp [Curve.step, hb, hg]
  · rw [hb, hg]

/-- Witness for C9 at a curve with the irregular basis `[0, 1, 3]`. -/
theorem step_property_catches_curve_error_witness :
    ((⟨[some 0, some 0, some 0], [0, 1, 3], "MD", "GR", none, 0, 0,
        none, none, none⟩ : Curve).basis = [0, 1, 3]) ∧
    (allcloseB (1 - 0) (npDiff [(0:ℚ), 1, 3]) = false) ∧
    ((⟨[some 0, some 0, some 0], [0, 1, 3], "MD", "GR", none, 0, 0,
        none, none, none⟩ : Curve).step = .ok none ∧
      getStep (⟨[some 0, some 0, some 0], [0, 1, 3], "MD", "GR", none, 0, 0,
        none, none, none⟩ : Curve).basis = .error .curveError) := by
  refine ⟨rfl, ?_, ?_⟩
  · simp [allcloseB, npDiff, npAtol, npRtol]
    norm_num
  · exact step_property_catches_curve_error _ 0 1 [3] rfl
      (by simp [allcloseB, npDiff, npAtol, npRtol]; norm_num)

/-! ### Claim C6 -/

/-- Claim C6: for every `Curve` of 100 samples, slicing with the
integer-position selector `[2:4]` yields a new `Curve` of length 2 whose
basis (and data) equal the parent's at positions 2 and 3, and whose
metadata attributes are all copies of the parent's. The embedding is a
pure function of the parent, which is therefore left unchanged. -/
theorem slice_2_4_of_100 (c : Curve) (hd : c.data.length = 100)
    (hb : c.basis.length = 100) :
    (c.getitemSlice 2 4).data.length = 2 ∧
    (c.getitemSlice 2 4).basis.length = 2 ∧
    (c.getitemSlice 2 4).basis[0]? = c.basis[2]? ∧
    (c.getitemSlice 2 4).basis[1]? = c.basis[3]? ∧
    (c.getitemSlice 2 4).data[0]? = c.data[2]? ∧
    (c.getitemSlice 2 4).data[1]? = c.data[3]? ∧
    (c.getitemSlice 2 4).domain = c.domain ∧
    (c.getitemSlice 2 4).mnemonic = c.mnemonic ∧
    (c.getitemSlice 2 4).units = c.units ∧
    (c.getitemSlice 2 4).run = c.run ∧
    (c.getitemSlice 2 4).null = c.null ∧
    (c.getitemSlice 2 4).service_company = c.service_company ∧
    (c.getitemSlice 2 4).date = c.date ∧
    (c.getitemSlice 2 4).code = c.code := by
  refine ⟨?_, ?_, ?_, ?_, ?_, ?_, rfl, rfl, rfl, rfl, rfl, rfl, rfl, rfl⟩
  · simp [Curve.getitemSlice, hd]
  · simp [Curve.getitemSlice, hb]
  · simp [Curve.getitemSlice, List.getElem?_take_of_lt, List.getElem?_drop]
  · simp [Curve.getitemSlice, List.getElem?_take_of_lt, List.getElem?_drop]
  · simp [Curve.getitemSlice, List.getElem?_take_of_lt, List.getElem?_drop]
  · simp [Curve.getitemSlice, List.getElem?_take_of_lt, List.getElem?_drop]

/-- Witness for C6 at a concrete 100-sample curve. -/
theorem slice_2_4_of_100_witness :
    ((⟨List.replicate 100 (some 0), List.replicate 100 (0 : ℚ),
        "MD", "GR", none, 0, 0, none, none, none⟩ : Curve).data.length = 100) ∧
    ((⟨List.replicate 100 (some 0), List.replicate 100 (0 : ℚ),
        "MD", "GR", none, 0, 0, none, none, none⟩ : Curve).basis.length = 100) ∧
    ((⟨List.replicate 100 (some 0), List.replicate 100 (0 : ℚ),
        "MD", "GR", none, 0, 0, none, none, none⟩ : Curve).getitemSlice 2 4).basis[0]? =
      (⟨List.replicate 100 (some 0), List.replicate 100 (0 : ℚ),
        "MD", "GR", none, 0, 0, none, none, none⟩ : Curve).basis[2]? := by
  refine ⟨by simp, by simp, ?_⟩
  exact (slice_2_4_of_100 _ (by simp) (by simp)).2.2.1

/-! ### Claim C8 -/

/-- Claim C8: `describe()` on a curve with data `[1.0, NaN, 3.0]` returns
`samples = 3`, `nulls = 1`, `mean = 2.0`, `min = 1.0`, `max = 3.0`, where
`nulls` counts the NaN positions (the NaN marker, not the `null` sentinel:
the curve's `null` attribute is the default sentinel `-999.25` and plays
no role in the count). -/
theorem describe_with_nan :
    (Curve.init [some 1, none, some 3] [0, 1, 2] "MD" "GR"
        (some Params.defaults)).map Curve.describe =
      .ok ⟨3, 1, some 2, some 1, some 3⟩ := by
  simp [Curve.init, Curve.describe, Except.map, List.filterMap, List.min?,
    List.max?, List.foldl]
  norm_num [min_def, max_def]

/-! ### Claim C2 -/

/-- Counterexample to claim C2: `Curve` construction does not raise
`CurveError` in any of the three claimed cases. Data of length 10 with a
basis of length 9 raises the array library's `ValueError` (not
`CurveError`), an empty mnemonic is accepted without error, and a domain
outside the fixed enumeration (`"FOO"`) is accepted without error. -/
theorem curve_init_counterexample :
    Curve.init (List.replicate 10 (some 0)) (List.replicate 9 (0 : ℚ)) "MD"
        "CURVE" (some Params.defaults) = .error .valueError ∧
    (Curve.init (List.replicate 10 (some 0)) (List.replicate 10 (0 : ℚ)) "MD"
        "" (some Params.defaults)).isOk = true ∧
    (Curve.init (List.replicate 10 (some 0)) (List.replicate 10 (0 : ℚ)) "FOO"
        "CURVE" (some Params.defaults)).isOk = true ∧
    PyErr.valueError ≠ PyErr.curveError := by
  refine ⟨?_, ?_, ?_, by decide⟩ <;> simp [Curve.init, Except.isOk, Except.toBool]

/-- Claim C2 (amended): `Curve` construction (with a params dict present)
validates nothing itself; the only failure is the wrapped array
construction, which raises the array library's `ValueError` — not
`CurveError` — exactly when the data length differs from the basis length.
An empty mnemonic and a domain outside the enumeration
{MD, TVD, TVDSS, TVDKB, TWT, OWT} are accepted without error. -/
theorem curve_init_checks_only_lengths (data : List Val) (basis : List ℚ)
    (domain mnemonic : String) (p : Params) :
    (data.length = basis.length →
      (Curve.init data basis domain mnemonic (some p)).isOk = true) ∧
    (data.length ≠ basis.length →
      Curve.init data basis domain mnemonic (some p) = .error .valueError) := by
  constructor <;> intro h <;> simp [Curve.init, h, Except.isOk, Except.toBool]

/-- Witness for the amended C2: a length-10/length-10 construction with an
empty mnemonic and a non-enumerated domain succeeds. -/
theorem curve_init_checks_only_lengths_witness :
    ((List.replicate 10 (some (0:ℚ)) : List Val).length =
      (List.replicate 10 (0 : ℚ)).length) ∧
    (Curve.init (List.replicate 10 (some 0)) (List.replicate 10 (0 : ℚ))
        "FOO" "" (some Params.defaults)).isOk = true := by
  refine ⟨by simp, ?_⟩
  exact (curve_init_checks_only_lengths _ _ "FOO" "" Params.defaults).1 (by simp)

/-! ### Claim C3 -/

/-- Counterexample to claim C3: with no coordinate array, data of length 5,
`start = 0`, `stop = 1` and a `None` step, `from_lasio` does not derive
`step = (stop - start) / (data_length - 1) = 1/4` and does not build a
5-sample basis matching the data: the range generator falls back to its
default step of 1, producing the 1-sample basis `[0]`, and construction
fails with the array library's `ValueError`. With `step = 0` the call
raises `ZeroDivisionError` instead of deriving a step. -/
theorem from_lasio_no_step_derivation_counterexample :
    fromLasio (List.replicate 5 (some 0)) "GR" "API" "d" "c" none (some 0)
        (some 1) none (-1) (-(3997/4)) none none = .error .valueError ∧
    fromLasio (List.replicate 5 (some 0)) "GR" "API" "d" "c" none (some 0)
        (some 1) (some 0) (-1) (-(3997/4)) none none =
      .error .zeroDivisionError := by
  constructor
  · have ha : arange 0 1 1 = [0] := by
      rw [arange_eval 0 1 1 1 (by norm_num),
        show List.range 1 = [0] from by decide]
      norm_num
    simp [fromLasio, ha, Curve.init]
  · simp [fromLasio]

/-- Claim C3 (amended): when no coordinate array is supplied, `from_lasio`
requires both `start` and `stop` (raising `CurveError` when either is
missing) and uses the supplied step unchanged in
`arange(start, stop, step)` — no step is ever derived from the data
length; the curve is built only when the generated basis happens to have
the data's length, and otherwise construction fails with the array
library's `ValueError`. -/
theorem from_lasio_uses_given_step (data : List Val) (start stop s : ℚ)
    (cm cu cd ca : String) (run : Int) (null : ℚ) (sc dt : Option String)
    (hs : s ≠ 0) (hlen : data.length = (arange start stop s).length) :
    (fromLasio data cm cu cd ca none (some start) (some stop) (some s)
        run null sc dt).map Curve.basis = .ok (arange start stop s) ∧
    fromLasio data cm cu cd ca none (some start) none (some s)
        run null sc dt = .error .curveError ∧
    fromLasio data cm cu cd ca none none (some stop) (some s)
        run null sc dt = .error .curveError := by
  refine ⟨?_, by simp [fromLasio], by simp [fromLasio]⟩
  simp [fromLasio, hs, Curve.init, hlen, Except.map]

/-- Witness for the amended C3 with `start = 0`, `stop = 1`, `step = 1`. -/
theorem from_lasio_uses_given_step_witness :
    ((1 : ℚ) ≠ 0) ∧
    (([some 0] : List Val).length = (arange 0 1 1).length) ∧
    (fromLasio [some 0] "GR" "API" "d" "c" none (some 0) (some 1) (some 1)
        (-1) (-(3997/4)) none none).map Curve.basis = .ok (arange 0 1 1) := by
  have ha : arange 0 1 1 = [0] := by
    rw [arange_eval 0 1 1 1 (by norm_num),
      show List.range 1 = [0] from by decide]
    norm_num
  refine ⟨by norm_num, by rw [ha]; simp, ?_⟩
  exact (from_lasio_uses_given_step [some 0] 0 1 1 "GR" "API" "d" "c"
    (-1) (-(3997/4)) none none (by norm_num) (by rw [ha]; simp)).1

/-! ### Claim C5 -/

/-- Counterexample to claim C5: `Seismic` construction with a data array of
shape `(10, 10, 100)` and axis coordinate lengths `(10, 10, 99)` fails with
the array library's `ValueError`, not with `SeismicError` — the constructor
itself validates nothing and `SeismicError` is never raised by it. -/
theorem seismic_init_counterexample :
    Seismic.init (⟨[10, 10, 100], List.replicate 10000 0, none⟩ :
        NDArray String)
      (some [("ilines", List.replicate 10 0), ("xlines", List.replicate 10 0),
        ("samples", List.replicate 99 0)]) "dimensionless" =
      .error .valueError ∧
    PyErr.valueError ≠ PyErr.seismicError := by
  refine ⟨?_, by decide⟩
  simp [Seismic.init, coordsMatch]

/-- Claim C5 (amended): a `Seismic` constructed with an axis coordinate
length mismatching the corresponding data dimension fails with the array
library's `ValueError` — `SeismicError` is never raised by construction
(the constructor performs no check of its own). The `(10, 10, 100)` /
`(10, 10, 100)` example succeeds and the `(10, 10, 99)` example fails
with `ValueError`. -/
theorem seismic_init_valueerror_only :
    (∀ (U : Type) (d : NDArray U) (c? : Option (List (String × List ℚ)))
        (u : U) (e : PyErr), Seismic.init d c? u = .error e →
        e = PyErr.valueError) ∧
    (Seismic.init (⟨[10, 10, 100], List.replicate 10000 0, none⟩ :
          NDArray String)
        (some [("ilines", List.replicate 10 0), ("xlines", List.replicate 10 0),
          ("samples", List.replicate 100 0)]) "dimensionless").isOk = true ∧
    Seismic.init (⟨[10, 10, 100], List.replicate 10000 0, none⟩ :
        NDArray String)
      (some [("ilines", List.replicate 10 0), ("xlines", List.replicate 10 0),
        ("samples", List.replicate 99 0)]) "dimensionless" =
      .error .valueError := by
  refine ⟨?_, ?_, ?_⟩
  · intro U d c? u e h
    cases c? with
    | none => simp [Seismic.init] at h
    | some cs =>
        by_cases hc : coordsMatch cs d.shape = true
        · simp [Seismic.init, hc] at h
        · simp [Seismic.init, hc] at h
          exact h.symm
  · have hcm : coordsMatch
        [("ilines", List.replicate 10 (0:ℚ)), ("xlines", List.replicate 10 (0:ℚ)),
          ("samples", List.replicate 100 (0:ℚ))] [10, 10, 100] = true := by
      simp [coordsMatch]
    simp only [Seismic.init, hcm, if_true, Except.isOk, Except.toBool]
  · have hcm : coordsMatch
        [("ilines", List.replicate 10 (0:ℚ)), ("xlines", List.replicate 10 (0:ℚ)),
          ("samples", List.replicate 99 (0:ℚ))] [10, 10, 100] = false := by
      simp [coordsMatch]
    simp only [Seismic.init, hcm, Bool.false_eq_true, if_false]

/-- Witness for the amended C5: the general part applied at the concrete
mismatching input. -/
theorem seismic_init_valueerror_only_witness :
    (Seismic.init (⟨[2], [0, 0], none⟩ : NDArray String)
        (some [("x", [])]) "dimensionless" = .error PyErr.valueError) ∧
    PyErr.valueError = PyErr.valueError := by
  have h : Seismic.init (⟨[2], [0, 0], none⟩ : NDArray String)
      (some [("x", [])]) "dimensionless" = .error PyErr.valueError := by
    simp [Seismic.init, coordsMatch]
  exact ⟨h, seismic_init_valueerror_only.1 String ⟨[2], [0, 0], none⟩
    (some [("x", [])]) "dimensionless" PyErr.valueError h⟩

/-! ### Claim C7 -/

/-- Claim C7: `set_units` replaces only the unit tag and `convert_units`
changes only the unit tag (via the unit registry's conversion `pintTo`);
neither operation modifies the wrapped array or its coordinates, so the
underlying data values are identical before and after either call. -/
theorem units_ops_do_not_touch_data {U : Type} (pintTo : U → U → U)
    (s : Seismic U) (u : U) :
    (s.set_units u).xarray = s.xarray ∧
    (s.set_units u).coords = s.coords ∧
    (s.set_units u)._units = u ∧
    (Seismic.convert_units pintTo s u).xarray = s.xarray ∧
    (Seismic.convert_units pintTo s u).coords = s.coords ∧
    (Seismic.convert_units pintTo s u)._units = pintTo s._units u :=
  ⟨rfl, rfl, rfl, rfl, rfl, rfl⟩

/-! ### Claim C10 -/

/-- Claim C10: when the array wrapped by a `Seismic` carries a `units`
entry in its attribute mapping, the `units` argument passed to the
constructor is ignored and the attribute value becomes the instance's unit
tag; the `units` argument takes effect only when no such attribute is
present. -/
theorem seismic_init_attrs_units_win {U : Type} (d : NDArray U)
    (c? : Option (List (String × List ℚ))) (u : U) (s : Seismic U)
    (h : Seismic.init d c? u = .ok s) :
    (∀ a, d.attrsUnits = some a → s._units = a) ∧
    (d.attrsUnits = none → s._units = u) := by
  have hu : s._units = d.attrsUnits.getD u := by
    cases c? with
    | none =>
        simp only [Seismic.init] at h
        injection h with h
        rw [← h]
    | some cs =>
        by_cases hc : coordsMatch cs d.shape = true
        · simp only [Seismic.init, hc, if_true] at h
          injection h with h
          rw [← h]
        · simp [Seismic.init, hc] at h
  constructor
  · intro a ha
    rw [hu, ha]
    rfl
  · intro ha
    rw [hu, ha]
    rfl

/-- Witness for C10: a wrapped array carrying `attrs['units'] = "m"`
overrides the `"dimensionless"` argument. -/
theorem seismic_init_attrs_units_win_witness :
    (Seismic.init (⟨[2], [1, 2], some "m"⟩ : NDArray String) none
        "dimensionless" =
      .ok ⟨⟨[2], [1, 2], some "m"⟩, [], "m"⟩) ∧
    ((⟨[2], [1, 2], some "m"⟩ : NDArray String).attrsUnits = some "m") ∧
    (⟨⟨[2], [1, 2], some "m"⟩, [], "m"⟩ : Seismic String)._units = "m" :=
  ⟨rfl, rfl,
    (seismic_init_attrs_units_win ⟨[2], [1, 2], some "m"⟩ none "dimensionless"
      ⟨⟨[2], [1, 2], some "m"⟩, [], "m"⟩ rfl).1 "m" rfl⟩
